import Mathlib

/-!
Shallow embedding of the kyle-kaia wallet module
(src/types/wallet.types.ts, src/config/networks.ts,
src/services/KaiaWalletService.ts, src/adapters/WalletAdapter.ts).

JavaScript `Promise` rejection / `throw` is modelled with `Except JsError`;
the mutable `this.state` / `this.web3Provider` fields are threaded as an
explicit `ServiceState`; `EventEmitter.emit` calls are collected into a
`List WEvent` returned next to the new state.  The injected browser
provider (`window.klaytn` / `window.ethereum`) together with the RPC
behaviour of the `Web3Provider` wrapper is modelled by `ProviderObj`
inside an `Env`.
-/

namespace KaiaWallet

/-- `WalletConnectionStatus` enum from wallet.types.ts. -/
inductive WalletConnectionStatus where
  | disconnected
  | connecting
  | connected
  | error
  deriving DecidableEq, Repr

/-- `WalletProvider` enum from wallet.types.ts. -/
inductive WalletProvider where
  | kaikas
  | metamask
  | walletConnect
  deriving DecidableEq, Repr

/-- The string value of the `WalletProvider` enum member (wallet.types.ts). -/
def WalletProvider.str : WalletProvider → String
  | .kaikas => "kaikas"
  | .metamask => "metamask"
  | .walletConnect => "walletconnect"

/-- `Account` interface from wallet.types.ts. -/
structure Account where
  address : String
  balance : String
  deriving DecidableEq, Repr

/-- `Network` interface from wallet.types.ts. -/
structure Network where
  chainId : Nat
  name : String
  rpcUrl : String
  blockExplorerUrl : Option String
  deriving DecidableEq, Repr

/-- Each distinct `new Error(...)` site of the source becomes one
constructor; `provider` stands for a native rejection coming out of the
injected provider (carrying the numeric `code` the source inspects), and
`typeError` for a JavaScript TypeError raised by calling into an
`undefined` provider object. -/
inductive JsError where
  | notInstalled (p : WalletProvider)
  | noAccounts
  | notConnected
  | balanceFailed (inner : String)
  | txFailed (inner : String)
  | signFailed (inner : String)
  | unsupportedNetwork (chainId : Nat)
  | unsupportedProviderKind (p : WalletProvider)
  | unsupportedWallet (p : WalletProvider)
  | walletUnavailable (p : WalletProvider)
  | provider (msg : String) (codeNum : Option Int)
  | typeError (msg : String)
  deriving DecidableEq, Repr

/-- The `.message` of the corresponding JavaScript `Error` object. -/
def JsError.message : JsError → String
  | .notInstalled p => p.str ++ " 지갑이 설치되지 않았습니다."
  | .noAccounts => "계정을 찾을 수 없습니다."
  | .notConnected => "지갑이 연결되지 않았습니다."
  | .balanceFailed inner => "잔액 조회 실패: " ++ inner
  | .txFailed inner => "트랜잭션 전송 실패: " ++ inner
  | .signFailed inner => "메시지 서명 실패: " ++ inner
  | .unsupportedNetwork chainId => "지원하지 않는 네트워크입니다: " ++ toString chainId
  | .unsupportedProviderKind p => "지원하지 않는 지갑 제공자: " ++ p.str
  | .unsupportedWallet p => "지원하지 않는 지갑입니다: " ++ p.str
  | .walletUnavailable p => p.str ++ " 지갑을 사용할 수 없습니다."
  | .provider m _ => m
  | .typeError m => m

/-- The `.code` property read by `switchNetwork`; only native provider
errors carry one (`new Error(...)` has none). -/
def JsError.code : JsError → Option Int
  | .provider _ c => c
  | _ => none

/-- `WalletState` interface from wallet.types.ts. -/
structure WalletState where
  status : WalletConnectionStatus
  account : Option Account
  network : Option Network
  provider : Option WalletProvider
  error : Option String
  deriving DecidableEq, Repr

/-- `TransactionParams` interface from wallet.types.ts (`to` renamed to
`toAddress`: `to` is reserved in Lean). -/
structure TransactionParams where
  toAddress : String
  value : Option String
  data : Option String
  gas : Option String
  gasPrice : Option String
  deriving DecidableEq, Repr

/-- The `txParams` object `sendTransaction` builds before calling the
signer (defaults applied: value `"0"`, data `"0x"`). -/
structure NormalizedTx where
  toAddress : String
  value : String
  data : String
  gasLimit : Option String
  gasPrice : Option String
  deriving DecidableEq, Repr

/-- What the signer round-trip (`sendTransaction` + `tx.wait()`) yields:
the hash and the (possibly missing) receipt fields. -/
structure TxOutcome where
  hash : String
  blockNumber : Option Nat
  gasUsed : Option Nat
  deriving DecidableEq, Repr

/-- `TransactionResult` interface from wallet.types.ts. -/
structure TransactionResult where
  hash : String
  blockNumber : Option Nat
  gasUsed : Option String
  deriving DecidableEq, Repr

/-! ## NetworkRegistry (src/config/networks.ts) -/

def KAIA_MAINNET : Network :=
  { chainId := 8217
    name := "Kaia Mainnet"
    rpcUrl := "https://public-en.node.kaia.io"
    blockExplorerUrl := some "https://kaiascan.io" }

def KAIA_TESTNET : Network :=
  { chainId := 1001
    name := "Kaia Testnet Kairos"
    rpcUrl := "https://public-en-kairos.node.kaia.io"
    blockExplorerUrl := some "https://kairos.kaiascan.io" }

/-- `Object.values(KAIA_NETWORKS)` in declaration order (mainnet, testnet). -/
def KAIA_NETWORKS : List Network := [KAIA_MAINNET, KAIA_TESTNET]

/-- `getNetworkByChainId` from src/config/networks.ts: `find ... || null`. -/
def getNetworkByChainId (chainId : Nat) : Option Network :=
  KAIA_NETWORKS.find? (fun n => n.chainId == chainId)

/-! ## The environment: injected provider + RPC behaviour

`ProviderObj` bundles the injected provider object (its brand flag and
its `request` responses) with the answers the `Web3Provider` wrapper
built on top of it gives to `listAccounts` / `getNetwork` / `getBalance`
/ signer calls.  The source's `typeof accounts[0] === 'string'` branch
collapses: accounts are modelled directly as address strings. -/

structure ProviderObj where
  /-- `isKaikas` on `window.klaytn`, `isMetaMask` on `window.ethereum`. -/
  brandFlag : Bool
  /-- response to `request({ method: 'eth_requestAccounts' })`. -/
  requestAccounts : Except JsError Unit
  /-- answer of `web3Provider.listAccounts()` (addresses). -/
  listAccounts : Except JsError (List String)
  /-- answer of `web3Provider.getNetwork()` (its `chainId`, as a Nat). -/
  chainIdResult : Except JsError Nat
  /-- answer of `web3Provider.getBalance(address)` (Wei amount). -/
  balanceOf : String → Except JsError Nat
  /-- response to `request({ method: 'wallet_switchEthereumChain' })`. -/
  switchChain : Nat → Except JsError Unit
  /-- response to `request({ method: 'wallet_addEthereumChain' })`. -/
  addChain : Nat → Except JsError Unit
  /-- signer `sendTransaction` + `tx.wait()` round-trip. -/
  sendTx : NormalizedTx → Except JsError TxOutcome
  /-- signer `signMessage`. -/
  signMsg : String → Except JsError String

/-- The browser execution context: `typeof window`, `window.klaytn`,
`window.ethereum`. -/
structure Env where
  hasWindow : Bool
  klaytn : Option ProviderObj
  ethereum : Option ProviderObj

/-- `KaiaWalletService.isAvailable` (KaiaWalletService.ts lines 89-100). -/
def isAvailable (env : Env) (p : WalletProvider) : Bool :=
  if env.hasWindow = false then false
  else
    match p with
    | .kaikas =>
      match env.klaytn with
      | some o => o.brandFlag
      | none => false
    | .metamask =>
      match env.ethereum with
      | some o => o.brandFlag
      | none => false
    | .walletConnect => false

/-- `KaiaWalletService.getProvider` (lines 342-351): returns
`window.klaytn` / `window.ethereum` (possibly `undefined`, hence the
`Option`), and throws for any other provider kind. -/
def getProviderRaw (env : Env) (p : WalletProvider) :
    Except JsError (Option ProviderObj) :=
  match p with
  | .kaikas => .ok env.klaytn
  | .metamask => .ok env.ethereum
  | .walletConnect => .error (.unsupportedProviderKind .walletConnect)

/-! ## KaiaWalletService state and operations -/

/-- Normalized events re-emitted by the service (`WalletEvents`). -/
inductive WEvent where
  | connect (a : Account)
  | disconnect
  | accountsChanged (accounts : List String)
  | chainChanged (chainId : String)
  | error (e : JsError)

/-- The mutable fields of one `KaiaWalletService` instance.  The
`wallet : EthersExtWallet | null` field of the source is only ever
assigned `null` and is therefore not carried.  `listenersInstalled`
records whether `setupEventListeners` registered the native listeners
(it returns early when the provider is unavailable at construction). -/
structure ServiceState where
  walletProvider : WalletProvider
  state : WalletState
  web3Provider : Option ProviderObj
  listenersInstalled : Bool

/-- The constructor (lines 44-59): initial state plus
`setupEventListeners` (which installs listeners iff available). -/
def mkService (env : Env) (p : WalletProvider) : ServiceState :=
  { walletProvider := p
    state :=
      { status := .disconnected
        account := none
        network := none
        provider := some p
        error := none }
    web3Provider := none
    listenersInstalled := isAvailable env p }

/-- `getState` (line 64): returns a copy of the state snapshot. -/
def getState (s : ServiceState) : WalletState := s.state

/-- `handleError` (lines 78-84): transition to ERROR with the failure
message and emit the `error` event. -/
def handleError (s : ServiceState) (e : JsError) :
    ServiceState × List WEvent :=
  ({ s with state := { s.state with status := .error, error := some e.message } },
   [.error e])

/-- `getBalance` (lines 210-234).  Pure read: mutates nothing, emits
nothing.  Errors raised inside the `try` (including the internal
no-accounts throw) are re-wrapped as `잔액 조회 실패: <message>`. -/
def getBalance (s : ServiceState) (address : Option String) :
    Except JsError String :=
  match s.web3Provider with
  | none => .error .notConnected
  | some pobj =>
    let targetRes : Except JsError String :=
      match address with
      | some a => .ok a
      | none =>
        match pobj.listAccounts with
        | .error e => .error e
        | .ok [] => .error .noAccounts
        | .ok (a :: _) => .ok a
    match targetRes with
    | .error e => .error (.balanceFailed e.message)
    | .ok addr =>
      match pobj.balanceOf addr with
      | .error e => .error (.balanceFailed e.message)
      | .ok b => .ok (toString b)

/-- `getNetwork` (lines 194-205): null when no provider handle, null on
query failure, else NetworkRegistry lookup. -/
def getNetwork (s : ServiceState) : Option Network :=
  match s.web3Provider with
  | none => none
  | some pobj =>
    match pobj.chainIdResult with
    | .error _ => none
    | .ok cid => getNetworkByChainId cid

/-- `getAccount` (lines 169-189): null when no handle / no accounts;
internal errors (including balance failure) swallowed to null. -/
def getAccount (s : ServiceState) : Option Account :=
  match s.web3Provider with
  | none => none
  | some pobj =>
    match pobj.listAccounts with
    | .error _ => none
    | .ok [] => none
    | .ok (a :: _) =>
      match getBalance s (some a) with
      | .error _ => none
      | .ok b => some { address := a, balance := b }

/-- Result of an operation that may mutate state and emit events. -/
structure OpResult (α : Type) where
  res : Except JsError α
  state : ServiceState
  events : List WEvent

/-- The `catch` block of `connect` (lines 145-148):
`handleError(error); throw error`. -/
def connectFail (s : ServiceState) (e : JsError) : OpResult Account :=
  let he := handleError s e
  ⟨.error e, he.1, he.2⟩

/-- `connect` (lines 105-149).  The `.ok none` branch (provider object
`undefined` although `isAvailable` returned true) is unreachable — see
`isAvailable_getProviderRaw` below — and is modelled as a TypeError
caught by the same `catch`. -/
def connect (env : Env) (s : ServiceState) : OpResult Account :=
  if isAvailable env s.walletProvider = false then
    ⟨.error (.notInstalled s.walletProvider), s, []⟩
  else
    -- updateState({ status: CONNECTING })
    let s1 : ServiceState :=
      { s with state := { s.state with status := .connecting } }
    match getProviderRaw env s.walletProvider with
    | .error e => connectFail s1 e
    | .ok none => connectFail s1 (.typeError "Cannot read properties of undefined")
    | .ok (some pobj) =>
      -- this.web3Provider = new Web3Provider(provider)
      let s2 : ServiceState := { s1 with web3Provider := some pobj }
      match pobj.requestAccounts with
      | .error e => connectFail s2 e
      | .ok _ =>
        match pobj.listAccounts with
        | .error e => connectFail s2 e
        | .ok [] => connectFail s2 .noAccounts
        | .ok (addr :: _) =>
          match getBalance s2 (some addr) with
          | .error e => connectFail s2 e
          | .ok balance =>
            let account : Account := { address := addr, balance := balance }
            let network := getNetwork s2
            let s3 : ServiceState :=
              { s2 with state :=
                { s2.state with
                    status := .connected
                    account := some account
                    network := network
                    error := none } }
            ⟨.ok account, s3, [.connect account]⟩

/-- `disconnect` (lines 154-164). -/
def disconnect (s : ServiceState) : ServiceState × List WEvent :=
  ({ s with
      web3Provider := none
      state :=
        { s.state with
            status := .disconnected
            account := none
            network := none
            error := none } },
   [.disconnect])

/-- `sendTransaction` (lines 239-266). -/
def sendTransaction (s : ServiceState) (params : TransactionParams) :
    Except JsError TransactionResult :=
  match s.web3Provider with
  | none => .error .notConnected
  | some pobj =>
    let txParams : NormalizedTx :=
      { toAddress := params.toAddress
        value := params.value.getD "0"
        data := params.data.getD "0x"
        gasLimit := params.gas
        gasPrice := params.gasPrice }
    match pobj.sendTx txParams with
    | .error e => .error (.txFailed e.message)
    | .ok out =>
      .ok { hash := out.hash
            blockNumber := out.blockNumber
            gasUsed := out.gasUsed.map (fun g => toString g) }

/-- `signMessage` (lines 271-282). -/
def signMessage (s : ServiceState) (m : String) : Except JsError String :=
  match s.web3Provider with
  | none => .error .notConnected
  | some pobj =>
    match pobj.signMsg m with
    | .error e => .error (.signFailed e.message)
    | .ok sig => .ok sig

/-- `0x${chainId.toString(16)}` as sent to the provider. -/
def hexChainId (chainId : Nat) : String :=
  "0x" ++ String.mk (Nat.toDigits 16 chainId)

/-- The provider-native requests `switchNetwork` issues, in order. -/
inductive ProviderCall where
  | switchChain (chainIdHex : String)
  | addChain (chainIdHex : String) (chainName : String)
      (rpcUrls : List String) (blockExplorerUrls : Option (List String))
  deriving DecidableEq, Repr

/-- The `wallet_addEthereumChain` parameters built from the
NetworkRegistry entry (lines 304-316). -/
def addChainCall (chainId : Nat) (network : Network) : ProviderCall :=
  .addChain (hexChainId chainId) network.name [network.rpcUrl]
    (network.blockExplorerUrl.map (fun u => [u]))

/-- `switchNetwork` (lines 287-321).  Mutates no service state and emits
no normalized event; returns the outcome together with the ordered list
of provider-native requests actually issued. -/
def switchNetwork (env : Env) (s : ServiceState) (chainId : Nat) :
    Except JsError Unit × List ProviderCall :=
  match getProviderRaw env s.walletProvider with
  | .error e => (.error e, [])
  | .ok provOpt =>
    match getNetworkByChainId chainId with
    | none => (.error (.unsupportedNetwork chainId), [])
    | some network =>
      match provOpt with
      | none => (.error (.typeError "Cannot read properties of undefined"), [])
      | some pobj =>
        match pobj.switchChain chainId with
        | .ok _ => (.ok (), [.switchChain (hexChainId chainId)])
        | .error se =>
          if se.code = some 4902 then
            match pobj.addChain chainId with
            | .ok _ =>
              (.ok (), [.switchChain (hexChainId chainId), addChainCall chainId network])
            | .error ae =>
              (.error ae, [.switchChain (hexChainId chainId), addChainCall chainId network])
          else
            (.error se, [.switchChain (hexChainId chainId)])

/-! ## Native provider notifications (setupEventListeners, lines 356-387) -/

/-- The `accountsChanged` native listener body (lines 362-373): emit the
normalized event first, then either run the disconnect path (empty list)
or refresh the account in place. -/
def handleAccountsChanged (s : ServiceState) (accounts : List String) :
    ServiceState × List WEvent :=
  if accounts.isEmpty then
    let d := disconnect s
    (d.1, .accountsChanged accounts :: d.2)
  else
    match getAccount s with
    | some account =>
      ({ s with state := { s.state with account := some account } },
       [.accountsChanged accounts])
    | none => (s, [.accountsChanged accounts])

/-- A native `accountsChanged` notification: dispatched only when the
listeners were installed at construction. -/
def notifyAccountsChanged (s : ServiceState) (accounts : List String) :
    ServiceState × List WEvent :=
  if s.listenersInstalled then handleAccountsChanged s accounts else (s, [])

/-- The `chainChanged` native listener body (lines 376-381). -/
def handleChainChanged (s : ServiceState) (chainId : String) :
    ServiceState × List WEvent :=
  ({ s with state := { s.state with network := getNetwork s } },
   [.chainChanged chainId])

/-- A native `chainChanged` notification. -/
def notifyChainChanged (s : ServiceState) (chainId : String) :
    ServiceState × List WEvent :=
  if s.listenersInstalled then handleChainChanged s chainId else (s, [])

/-- A native provider `disconnect` notification (lines 384-386). -/
def notifyDisconnect (s : ServiceState) : ServiceState × List WEvent :=
  if s.listenersInstalled then disconnect s else (s, [])

/-! ## WalletAdapter (src/adapters/WalletAdapter.ts)

The `Map<WalletProvider, IWallet>` is modelled as an association list in
insertion order; the in-place mutation of a backend object reachable from
the map becomes a value replacement at its key, and the non-owning
`currentWallet` reference is stored as the key of the referenced backend
(so later mutations of the backend stay visible through it). -/

structure AdapterState where
  wallets : List (WalletProvider × ServiceState)
  currentWallet : Option WalletProvider

/-- `Map.get`. -/
def findWallet : List (WalletProvider × ServiceState) → WalletProvider →
    Option ServiceState
  | [], _ => none
  | x :: xs, p => if x.1 = p then some x.2 else findWallet xs p

/-- In-place mutation of the backend stored at key `p` (the key is always
already present at every call site, as in the source, where the map entry
is an object reference that is mutated, never re-inserted). -/
def setWallet (ws : List (WalletProvider × ServiceState))
    (p : WalletProvider) (s : ServiceState) :
    List (WalletProvider × ServiceState) :=
  ws.map (fun x => if x.1 = p then (p, s) else x)

/-- Constructor + `initializeWallets` (lines 12-34): registers Kaikas
then MetaMask; WalletConnect is only a comment in the source. -/
def mkAdapter (env : Env) : AdapterState :=
  { wallets :=
      [(.kaikas, mkService env .kaikas), (.metamask, mkService env .metamask)]
    currentWallet := none }

/-- `getAvailableWallets` (lines 39-43): filter by `isAvailable` in
registration order. -/
def getAvailableWallets (env : Env) (a : AdapterState) : List WalletProvider :=
  (a.wallets.filter (fun x => isAvailable env x.2.walletProvider)).map (fun x => x.1)

/-- `selectWallet` (lines 48-60). -/
def selectWallet (env : Env) (a : AdapterState) (p : WalletProvider) :
    Except JsError ServiceState × AdapterState :=
  match findWallet a.wallets p with
  | none => (.error (.unsupportedWallet p), a)
  | some w =>
    if isAvailable env w.walletProvider = false then
      (.error (.walletUnavailable p), a)
    else
      (.ok w, { a with currentWallet := some p })

/-- `getCurrentWallet` (lines 65-67): dereferences the non-owning
reference against the (possibly since-mutated) backend. -/
def getCurrentWallet (a : AdapterState) : Option ServiceState :=
  match a.currentWallet with
  | none => none
  | some p => findWallet a.wallets p

/-- The fixed priority order of `autoConnect` (lines 80-84). -/
def priorityOrder : List WalletProvider := [.kaikas, .metamask, .walletConnect]

/-- The `for (const provider of priority)` loop of `autoConnect`
(lines 86-97): `selectWallet` and `connect` run inside a `try` whose
`catch` logs and continues with the next candidate. -/
def autoConnectLoop (env : Env) (a : AdapterState)
    (avail : List WalletProvider) :
    List WalletProvider → Option WalletProvider × AdapterState
  | [] => (none, a)
  | p :: rest =>
    if p ∈ avail then
      match selectWallet env a p with
      | (.error _, a') => autoConnectLoop env a' avail rest
      | (.ok w, a') =>
        let r := connect env w
        let a'' : AdapterState :=
          { a' with wallets := setWallet a'.wallets p r.state }
        match r.res with
        | .ok _ => (some p, a'')
        | .error _ => autoConnectLoop env a'' avail rest
    else autoConnectLoop env a avail rest

/-- `autoConnect` (lines 72-100): the returned wallet is identified by
its provider kind (`none` = the source's `null`). -/
def autoConnect (env : Env) (a : AdapterState) :
    Option WalletProvider × AdapterState :=
  let avail := getAvailableWallets env a
  if avail.isEmpty then (none, a)
  else autoConnectLoop env a avail priorityOrder

/-- `disconnectAll` (lines 105-117): disconnect every backend whose
cached status is `'connected'`, then clear the current reference. -/
def disconnectAll (a : AdapterState) : AdapterState :=
  { wallets :=
      a.wallets.map (fun x =>
        if x.2.state.status = .connected then (x.1, (disconnect x.2).1) else x)
    currentWallet := none }

/-- `getWalletStates` (lines 122-130): synchronous snapshot of every
backend's cached state. -/
def getWalletStates (a : AdapterState) : List (WalletProvider × WalletState) :=
  a.wallets.map (fun x => (x.1, getState x.2))

/-! ## Reachability

`BackendReach` closes the initial service state under every
state-mutating operation of the service, the native-notification
handlers, and drift of the wrapped provider's answers over time
(`providerDrift`: the `Web3Provider` queries the live chain, so the
answers behind an existing handle may change between operations).
`getState`, `getBalance`, `getAccount`, `getNetwork`, `sendTransaction`,
`signMessage` and `switchNetwork` never mutate the service state (their
embeddings return no new state), so they need no step. -/

inductive BackendReach : ServiceState → Prop where
  | init (env : Env) (p : WalletProvider) : BackendReach (mkService env p)
  | connectStep (env : Env) {s : ServiceState} :
      BackendReach s → BackendReach (connect env s).state
  | disconnectStep {s : ServiceState} :
      BackendReach s → BackendReach (disconnect s).1
  | accountsChangedStep {s : ServiceState} (accounts : List String) :
      BackendReach s → BackendReach (notifyAccountsChanged s accounts).1
  | chainChangedStep {s : ServiceState} (cid : String) :
      BackendReach s → BackendReach (notifyChainChanged s cid).1
  | disconnectNotifyStep {s : ServiceState} :
      BackendReach s → BackendReach (notifyDisconnect s).1
  | providerDrift {s : ServiceState} (pobj pobj' : ProviderObj) :
      BackendReach s → s.web3Provider = some pobj →
      BackendReach { s with web3Provider := some pobj' }

/-- Registry states reachable from construction.  `backendStep` covers
every mutation of a backend object performed through a handle the caller
obtained from the registry (any `BackendReach`-style mutation preserves
the backend's immutable `walletProvider` constructor argument, which is
all this step demands). -/
inductive AdapterReach : AdapterState → Prop where
  | init (env : Env) : AdapterReach (mkAdapter env)
  | selectStep (env : Env) (p : WalletProvider) {a : AdapterState} :
      AdapterReach a → AdapterReach (selectWallet env a p).2
  | autoConnectStep (env : Env) {a : AdapterState} :
      AdapterReach a → AdapterReach (autoConnect env a).2
  | disconnectAllStep {a : AdapterState} :
      AdapterReach a → AdapterReach (disconnectAll a)
  | backendStep (p : WalletProvider) (w w' : ServiceState) {a : AdapterState} :
      AdapterReach a → findWallet a.wallets p = some w →
      w'.walletProvider = w.walletProvider →
      AdapterReach { a with wallets := setWallet a.wallets p w' }

/-! ## Concrete environments used in scenario theorems and witnesses -/

/-- An injected provider whose every interaction succeeds: one account
`0xABC` holding 10^18 of the smallest unit on chain 8217. -/
def happyProvider : ProviderObj :=
  { brandFlag := true
    requestAccounts := .ok ()
    listAccounts := .ok ["0xABC"]
    chainIdResult := .ok 8217
    balanceOf := fun _ => .ok 1000000000000000000
    switchChain := fun _ => .ok ()
    addChain := fun _ => .ok ()
    sendTx := fun _ => .ok { hash := "0xHASH", blockNumber := some 7, gasUsed := some 21000 }
    signMsg := fun _ => .ok "0xSIG" }

/-- Kaikas installed and fully functional; no MetaMask. -/
def envKaikasHappy : Env :=
  { hasWindow := true, klaytn := some happyProvider, ethereum := none }

/-- Kaikas installed but its account list is empty (connect must fail
after the provider handle is created). -/
def envKaikasNoAccounts : Env :=
  { hasWindow := true
    klaytn := some { happyProvider with listAccounts := .ok [] }
    ethereum := none }

/-- The native rejection raised when the user declines account access. -/
def userRejected : JsError := .provider "User rejected the request." (some 4001)

/-- A provider whose account-access request is declined by the user. -/
def rejectingProvider : ProviderObj :=
  { happyProvider with requestAccounts := .error userRejected }

/-- Kaikas installed but the user rejects the account-access request. -/
def envKaikasRejects : Env :=
  { hasWindow := true, klaytn := some rejectingProvider, ethereum := none }

/-- Both wallets installed; the higher-priority Kaikas rejects the
account request while MetaMask connects fine. -/
def envHigherFails : Env :=
  { hasWindow := true
    klaytn := some rejectingProvider
    ethereum := some happyProvider }

/-- A browser with no wallet extension at all. -/
def envNoWallets : Env :=
  { hasWindow := true, klaytn := none, ethereum := none }

/-- A provider that rejects every `wallet_switchEthereumChain` request
with the specific unknown-chain code 4902. -/
def provider4902 : ProviderObj :=
  { happyProvider with
      switchChain := fun _ => .error (.provider "Unrecognized chain ID." (some 4902)) }

/-- Kaikas installed; its chain-switch requests answer with code 4902. -/
def env4902 : Env :=
  { hasWindow := true, klaytn := some provider4902, ethereum := none }

/-! ## Helper lemmas -/

/-- When `isAvailable` holds, `getProvider` returns the brand-flagged
provider object. -/
theorem isAvailable_getProviderRaw {env : Env} {p : WalletProvider}
    (h : isAvailable env p = true) :
    ∃ o, getProviderRaw env p = .ok (some o) ∧ o.brandFlag = true := by
  unfold isAvailable at h
  unfold getProviderRaw
  split at h
  · simp at h
  · cases p with
    | kaikas =>
      revert h
      cases env.klaytn with
      | none => intro h; simp at h
      | some o => intro h; exact ⟨o, rfl, h⟩
    | metamask =>
      revert h
      cases env.ethereum with
      | none => intro h; simp at h
      | some o => intro h; exact ⟨o, rfl, h⟩
    | walletConnect => simp at h

theorem getAccount_of_no_provider {s : ServiceState}
    (h : s.web3Provider = none) : getAccount s = none := by
  unfold getAccount; rw [h]

theorem getNetwork_of_no_provider {s : ServiceState}
    (h : s.web3Provider = none) : getNetwork s = none := by
  unfold getNetwork; rw [h]

/-- The state-machine invariant maintained by every operation of the
service (all three status-driven clauses, plus the handle clause that
ties `Disconnected` to a cleared `web3Provider`). -/
def stateInv (s : ServiceState) : Prop :=
  (s.state.status = .connected → s.state.account ≠ none) ∧
  (s.state.status = .disconnected →
     s.state.account = none ∧ s.state.network = none ∧ s.web3Provider = none) ∧
  (s.state.status = .error → s.state.error ≠ none)

theorem stateInv_mkService (env : Env) (p : WalletProvider) :
    stateInv (mkService env p) := by
  refine ⟨?_, ?_, ?_⟩ <;> intro h <;> simp [mkService] at h ⊢

theorem stateInv_connect (env : Env) {s : ServiceState} (h : stateInv s) :
    stateInv (connect env s).state := by
  unfold connect
  dsimp only
  split
  · exact h
  · split
    · simp [connectFail, handleError, stateInv]
    · simp [connectFail, handleError, stateInv]
    · split
      · simp [connectFail, handleError, stateInv]
      · split
        · simp [connectFail, handleError, stateInv]
        · simp [connectFail, handleError, stateInv]
        · split
          · simp [connectFail, handleError, stateInv]
          · simp [stateInv]

theorem stateInv_disconnect {s : ServiceState} :
    stateInv (disconnect s).1 := by
  simp [disconnect, stateInv]

theorem stateInv_handleAccountsChanged {s : ServiceState} (h : stateInv s)
    (accounts : List String) :
    stateInv (handleAccountsChanged s accounts).1 := by
  unfold handleAccountsChanged
  split
  · simp [disconnect, stateInv]
  · split
    case h_1 account heq =>
      refine ⟨?_, ?_, ?_⟩
      · intro _; simp
      · intro hd
        have hw := (h.2.1 hd).2.2
        rw [getAccount_of_no_provider hw] at heq
        exact absurd heq (by simp)
      · intro he; exact h.2.2 he
    case h_2 heq => exact h

theorem stateInv_handleChainChanged {s : ServiceState} (h : stateInv s)
    (cid : String) : stateInv (handleChainChanged s cid).1 := by
  unfold handleChainChanged
  refine ⟨?_, ?_, ?_⟩
  · intro hc; exact h.1 hc
  · intro hd
    have hh := h.2.1 hd
    exact ⟨hh.1, by simpa using getNetwork_of_no_provider hh.2.2, hh.2.2⟩
  · intro he; exact h.2.2 he

theorem stateInv_reach {s : ServiceState} (h : BackendReach s) : stateInv s := by
  induction h with
  | init env p => exact stateInv_mkService env p
  | connectStep env _ ih => exact stateInv_connect env ih
  | disconnectStep _ _ => exact stateInv_disconnect
  | accountsChangedStep accounts _ ih =>
    unfold notifyAccountsChanged
    split
    · exact stateInv_handleAccountsChanged ih accounts
    · exact ih
  | chainChangedStep cid _ ih =>
    unfold notifyChainChanged
    split
    · exact stateInv_handleChainChanged ih cid
    · exact ih
  | disconnectNotifyStep _ ih =>
    unfold notifyDisconnect
    split
    · exact stateInv_disconnect
    · exact ih
  | providerDrift pobj pobj' hr hsome ih =>
    refine ⟨?_, ?_, ?_⟩
    · intro hc; exact ih.1 hc
    · intro hd
      exact absurd ((ih.2.1 hd).2.2) (by rw [hsome]; simp)
    · intro he; exact ih.2.2 he

/-- With a live provider handle, `getBalance` can fail only with a
`잔액 조회 실패` wrapper, never with the not-connected error. -/
theorem getBalance_ne_notConnected {s : ServiceState} {pobj : ProviderObj}
    (h : s.web3Provider = some pobj) (x : Option String) :
    getBalance s x ≠ .error .notConnected := by
  intro hx
  unfold getBalance at hx
  rw [h] at hx
  dsimp only at hx
  split at hx
  · simp at hx
  · split at hx
    · simp at hx
    · simp at hx

theorem sendTransaction_ne_notConnected {s : ServiceState} {pobj : ProviderObj}
    (h : s.web3Provider = some pobj) (params : TransactionParams) :
    sendTransaction s params ≠ .error .notConnected := by
  intro hx
  unfold sendTransaction at hx
  rw [h] at hx
  dsimp only at hx
  split at hx <;> simp at hx

theorem signMessage_ne_notConnected {s : ServiceState} {pobj : ProviderObj}
    (h : s.web3Provider = some pobj) (m : String) :
    signMessage s m ≠ .error .notConnected := by
  intro hx
  unfold signMessage at hx
  rw [h] at hx
  dsimp only at hx
  split at hx <;> simp at hx

/-- `getAccount` succeeds whenever the handle is live, the session lists
a first account and its balance query succeeds — independently of the
cached connection status. -/
theorem getAccount_of_success {s : ServiceState} {pobj : ProviderObj}
    {a : String} {rest : List String} {b : String}
    (h : s.web3Provider = some pobj)
    (hl : pobj.listAccounts = .ok (a :: rest))
    (hb : getBalance s (some a) = .ok b) :
    getAccount s = some { address := a, balance := b } := by
  simp [getAccount, h, hl, hb]

/-- The scenario state of C3: Kaikas backend after `connect()` resolved
with account `0xABC` and balance `"1000000000000000000"`. -/
def connectedKaikas : ServiceState :=
  (connect envKaikasHappy (mkService envKaikasHappy .kaikas)).state

/-- The state after a successful Kaikas connect followed by a re-connect
attempt that finds an empty account list. -/
def stateAfterFailedReconnect : ServiceState :=
  (connect envKaikasNoAccounts connectedKaikas).state

/-- `Except.isOk` written out. -/
def exceptOk {ε α : Type} : Except ε α → Bool
  | .ok _ => true
  | .error _ => false

/-- The outcome of `connect` as a function of the environment and the
provider kind alone: the source's `connect` reads nothing else, so this
is provably its `.res` projection (`connect_res` below). -/
def connectResSpec (env : Env) (p : WalletProvider) : Except JsError Account :=
  if isAvailable env p = false then .error (.notInstalled p)
  else
    match getProviderRaw env p with
    | .error e => .error e
    | .ok none => .error (.typeError "Cannot read properties of undefined")
    | .ok (some pobj) =>
      match pobj.requestAccounts with
      | .error e => .error e
      | .ok _ =>
        match pobj.listAccounts with
        | .error e => .error e
        | .ok [] => .error .noAccounts
        | .ok (addr :: _) =>
          match pobj.balanceOf addr with
          | .error e => .error (.balanceFailed e.message)
          | .ok b => .ok { address := addr, balance := toString b }

/-- The registry invariant: the key set is exactly the two kinds
registered by `initializeWallets`, in registration order, and every
stored backend's immutable constructor kind matches its key. -/
def adapterInv (a : AdapterState) : Prop :=
  a.wallets.map Prod.fst = [.kaikas, .metamask] ∧
  ∀ x ∈ a.wallets, x.2.walletProvider = x.1

example : (connect envKaikasHappy (mkService envKaikasHappy .kaikas)).state.state.status
    = .connected := by rfl
example : (connect envKaikasHappy (mkService envKaikasHappy .kaikas)).res
    = .ok { address := "0xABC", balance := "1000000000000000000" } := by rfl
example : (connect envKaikasNoAccounts (mkService envKaikasNoAccounts .kaikas)).state.state.status
    = .error := by rfl
example :
    (autoConnect envHigherFails (mkAdapter envHigherFails)).1 = some .metamask := by rfl
example : (autoConnect envNoWallets (mkAdapter envNoWallets)).1 = none := by rfl
example : getNetworkByChainId 999999 = none := by rfl
example : getNetworkByChainId 1001 = some KAIA_TESTNET := by rfl

/-! ## Claim theorems -/

/-- C1 (amended): for every reachable backend state, the forward clauses
of the WalletState invariant hold — `Connected` implies a non-null
account, `Disconnected` implies account and network are null, and
`Error` implies a non-null error message.  The converse direction
(`account` non-null implies `Connected`, and with it the claimed iff) is
refuted by `account_nonnull_without_connected_cex`: `handleError` leaves
the previous account in place. -/
theorem reach_walletState_invariant {s : ServiceState} (h : BackendReach s) :
    (s.state.status = .connected → s.state.account ≠ none) ∧
    (s.state.status = .disconnected →
        s.state.account = none ∧ s.state.network = none) ∧
    (s.state.status = .error → s.state.error ≠ none) := by
  have hi := stateInv_reach h
  exact ⟨hi.1, fun hd => ⟨(hi.2.1 hd).1, (hi.2.1 hd).2.1⟩, hi.2.2⟩

/-- Witness for C1 (amended) at the freshly connected Kaikas backend. -/
theorem reach_walletState_invariant_witness :
    ((connect envKaikasHappy (mkService envKaikasHappy .kaikas)).state.state.status
        = .connected →
      (connect envKaikasHappy (mkService envKaikasHappy .kaikas)).state.state.account
        ≠ none) ∧
    ((connect envKaikasHappy (mkService envKaikasHappy .kaikas)).state.state.status
        = .disconnected →
      (connect envKaikasHappy (mkService envKaikasHappy .kaikas)).state.state.account
          = none ∧
        (connect envKaikasHappy (mkService envKaikasHappy .kaikas)).state.state.network
          = none) ∧
    ((connect envKaikasHappy (mkService envKaikasHappy .kaikas)).state.state.status
        = .error →
      (connect envKaikasHappy (mkService envKaikasHappy .kaikas)).state.state.error
        ≠ none) :=
  reach_walletState_invariant
    (BackendReach.connectStep envKaikasHappy
      (BackendReach.init envKaikasHappy .kaikas))

/-- C1 counterexample: a reachable state produced by an operation
(a failed re-connect from `Connected`) whose account is non-null while
its status is `Error`, so `account != null` does not imply
`status = Connected` and the claimed iff fails. -/
theorem account_nonnull_without_connected_cex :
    BackendReach stateAfterFailedReconnect ∧
    stateAfterFailedReconnect.state.account
      = some { address := "0xABC", balance := "1000000000000000000" } ∧
    stateAfterFailedReconnect.state.status = .error ∧
    ¬ (stateAfterFailedReconnect.state.status = .connected ↔
        stateAfterFailedReconnect.state.account ≠ none) := by
  refine ⟨?_, rfl, rfl, ?_⟩
  · exact BackendReach.connectStep envKaikasNoAccounts
      (BackendReach.connectStep envKaikasHappy
        (BackendReach.init envKaikasHappy .kaikas))
  · intro hiff
    have hacc : stateAfterFailedReconnect.state.account ≠ none := by
      rw [show stateAfterFailedReconnect.state.account
          = some { address := "0xABC", balance := "1000000000000000000" } from rfl]
      simp
    have hcon := hiff.mpr hacc
    rw [show stateAfterFailedReconnect.state.status = .error from rfl] at hcon
    exact absurd hcon (by decide)

/-- C3: when the native `accountsChanged` notification carries an empty
account list and the backend's native listeners are installed, the
backend runs the disconnect path — status `Disconnected`, account and
network nulled, provider handle cleared — and emits the normalized
`disconnect` event (after the normalized `accountsChanged` event), not
merely `accountsChanged`. -/
theorem accountsChanged_empty_disconnects {s : ServiceState}
    (h : s.listenersInstalled = true) :
    (notifyAccountsChanged s []).1.state.status = .disconnected ∧
    (notifyAccountsChanged s []).1.state.account = none ∧
    (notifyAccountsChanged s []).1.state.network = none ∧
    (notifyAccountsChanged s []).1.web3Provider = none ∧
    (notifyAccountsChanged s []).2 = [.accountsChanged [], .disconnect] := by
  simp [notifyAccountsChanged, h, handleAccountsChanged, disconnect]

/-- Witness for C3, exercising the spec's scenario end to end. -/
theorem accountsChanged_empty_disconnects_witness :
    (connect envKaikasHappy (mkService envKaikasHappy .kaikas)).res
        = .ok { address := "0xABC", balance := "1000000000000000000" } ∧
    connectedKaikas.listenersInstalled = true ∧
    ((notifyAccountsChanged connectedKaikas []).1.state.status = .disconnected ∧
      (notifyAccountsChanged connectedKaikas []).1.state.account = none ∧
      (notifyAccountsChanged connectedKaikas []).1.state.network = none ∧
      (notifyAccountsChanged connectedKaikas []).1.web3Provider = none ∧
      (notifyAccountsChanged connectedKaikas []).2
        = [.accountsChanged [], .disconnect]) :=
  ⟨rfl, rfl, accountsChanged_empty_disconnects (s := connectedKaikas) rfl⟩

/-- C6: `disconnect` always succeeds (it is a total function), resets
the state to `Disconnected` with account, network and error nulled,
clears the provider handle, emits the `disconnect` event, and a second
call yields the very same observable state together with the redundant
`disconnect` emit. -/
theorem disconnect_spec (s : ServiceState) :
    (disconnect s).1.state.status = .disconnected ∧
    (disconnect s).1.state.account = none ∧
    (disconnect s).1.state.network = none ∧
    (disconnect s).1.state.error = none ∧
    (disconnect s).1.web3Provider = none ∧
    (disconnect s).2 = [.disconnect] ∧
    (disconnect (disconnect s).1).1 = (disconnect s).1 ∧
    (disconnect (disconnect s).1).2 = [.disconnect] := by
  simp [disconnect]

/-- C4: `connect` fails with the not-installed error (leaving state and
event stream untouched) when `isAvailable` is false; on any other
failure `e` it transitions to `Error` carrying `e`'s message, emits the
`error` event for `e`, and re-raises `e` to the caller — both channels
observe the same failure. -/
theorem connect_failure_spec (env : Env) (s : ServiceState) :
    (isAvailable env s.walletProvider = false →
      (connect env s).res = .error (.notInstalled s.walletProvider) ∧
      (connect env s).state = s ∧
      (connect env s).events = []) ∧
    (∀ e, isAvailable env s.walletProvider = true →
      (connect env s).res = .error e →
      (connect env s).state.state.status = .error ∧
      (connect env s).state.state.error = some e.message ∧
      (connect env s).events = [.error e]) := by
  constructor
  · intro h
    simp [connect, h]
  · intro e hav
    unfold connect
    dsimp only
    rw [if_neg (show ¬(isAvailable env s.walletProvider = false) from by simp [hav])]
    split
    · intro hres
      simp [connectFail, handleError] at hres ⊢
      subst hres; exact ⟨rfl, rfl⟩
    · intro hres
      simp [connectFail, handleError] at hres ⊢
      subst hres; exact ⟨rfl, rfl⟩
    · split
      · intro hres
        simp [connectFail, handleError] at hres ⊢
        subst hres; exact ⟨rfl, rfl⟩
      · split
        · intro hres
          simp [connectFail, handleError] at hres ⊢
          subst hres; exact ⟨rfl, rfl⟩
        · intro hres
          simp [connectFail, handleError] at hres ⊢
          subst hres; exact ⟨rfl, rfl⟩
        · split
          · intro hres
            simp [connectFail, handleError] at hres ⊢
            subst hres; exact ⟨rfl, rfl⟩
          · intro hres
            simp at hres

/-- Witness for C4: the unavailable branch on a bare browser and the
user-rejection branch on an installed Kaikas. -/
theorem connect_failure_spec_witness :
    (isAvailable envNoWallets
        (mkService envNoWallets .kaikas).walletProvider = false ∧
      (connect envNoWallets (mkService envNoWallets .kaikas)).res
        = .error (.notInstalled .kaikas)) ∧
    (isAvailable envKaikasRejects
        (mkService envKaikasRejects .kaikas).walletProvider = true ∧
      (connect envKaikasRejects (mkService envKaikasRejects .kaikas)).res
        = .error userRejected ∧
      (connect envKaikasRejects (mkService envKaikasRejects .kaikas)).state.state.status
        = .error ∧
      (connect envKaikasRejects (mkService envKaikasRejects .kaikas)).state.state.error
        = some userRejected.message ∧
      (connect envKaikasRejects (mkService envKaikasRejects .kaikas)).events
        = [.error userRejected]) := by
  constructor
  · exact ⟨rfl,
      ((connect_failure_spec envNoWallets (mkService envNoWallets .kaikas)).1 rfl).1⟩
  · refine ⟨rfl, rfl, ?_⟩
    exact (connect_failure_spec envKaikasRejects
      (mkService envKaikasRejects .kaikas)).2 userRejected rfl rfl

/-- C9: when `connect` fails after the `Web3Provider` handle was created
(here: the account-access request is rejected), the backend ends in
status `Error` yet keeps the handle, so `getBalance`, `sendTransaction`
and `signMessage` no longer fail with the not-connected error, and
`getAccount` returns a non-null account whenever the session still lists
one — even though the status is not `Connected`; `disconnect` is what
clears the handle. -/
theorem connect_partial_failure_keeps_handle (env : Env) (s : ServiceState)
    (pobj : ProviderObj) (e : JsError)
    (hav : isAvailable env s.walletProvider = true)
    (hpo : getProviderRaw env s.walletProvider = .ok (some pobj))
    (hreq : pobj.requestAccounts = .error e) :
    (connect env s).res = .error e ∧
    (connect env s).state.web3Provider = some pobj ∧
    (connect env s).state.state.status = .error ∧
    (∀ x, getBalance (connect env s).state x ≠ .error .notConnected) ∧
    (∀ params, sendTransaction (connect env s).state params
      ≠ .error .notConnected) ∧
    (∀ m, signMessage (connect env s).state m ≠ .error .notConnected) ∧
    (∀ a rest b, pobj.listAccounts = .ok (a :: rest) →
      getBalance (connect env s).state (some a) = .ok b →
      getAccount (connect env s).state
        = some { address := a, balance := b }) ∧
    (disconnect (connect env s).state).1.web3Provider = none := by
  have hc : connect env s = connectFail
      { s with state := { s.state with status := .connecting },
               web3Provider := some pobj } e := by
    unfold connect
    dsimp only
    rw [if_neg (show ¬(isAvailable env s.walletProvider = false) from by simp [hav])]
    rw [hpo]
    dsimp only
    rw [hreq]
  rw [hc]
  refine ⟨rfl, rfl, rfl, ?_, ?_, ?_, ?_, rfl⟩
  · exact fun x => getBalance_ne_notConnected rfl x
  · exact fun params => sendTransaction_ne_notConnected rfl params
  · exact fun m => signMessage_ne_notConnected rfl m
  · exact fun a rest b hl hb => getAccount_of_success rfl hl hb

/-- Witness for C9 at the user-rejecting Kaikas environment. -/
theorem connect_partial_failure_keeps_handle_witness :
    (connect envKaikasRejects (mkService envKaikasRejects .kaikas)).res
      = .error userRejected ∧
    (connect envKaikasRejects (mkService envKaikasRejects .kaikas)).state.web3Provider
      = some rejectingProvider ∧
    (connect envKaikasRejects (mkService envKaikasRejects .kaikas)).state.state.status
      = .error ∧
    (∀ x, getBalance
        (connect envKaikasRejects (mkService envKaikasRejects .kaikas)).state x
      ≠ .error .notConnected) ∧
    (∀ params, sendTransaction
        (connect envKaikasRejects (mkService envKaikasRejects .kaikas)).state params
      ≠ .error .notConnected) ∧
    (∀ m, signMessage
        (connect envKaikasRejects (mkService envKaikasRejects .kaikas)).state m
      ≠ .error .notConnected) ∧
    (∀ a rest b, rejectingProvider.listAccounts = .ok (a :: rest) →
      getBalance
          (connect envKaikasRejects (mkService envKaikasRejects .kaikas)).state
          (some a) = .ok b →
      getAccount (connect envKaikasRejects (mkService envKaikasRejects .kaikas)).state
        = some { address := a, balance := b }) ∧
    (disconnect
        (connect envKaikasRejects (mkService envKaikasRejects .kaikas)).state).1.web3Provider
      = none :=
  connect_partial_failure_keeps_handle envKaikasRejects
    (mkService envKaikasRejects .kaikas) rejectingProvider userRejected
    rfl rfl rfl

/-- C5: on a Kaikas or MetaMask backend, `switchNetwork(chainId)` with a
chain id absent from the NetworkRegistry fails with the
unsupported-network error while issuing no provider request at all; for
a registered chain id it issues `wallet_switchEthereumChain`, and when
the provider rejects that with code 4902 it follows up with
`wallet_addEthereumChain` built from the NetworkRegistry entry (the
overall outcome then being the add request's outcome), while a rejection
with any other code is re-raised unchanged. -/
theorem switchNetwork_spec (env : Env) (s : ServiceState) (chainId : Nat) :
    ((s.walletProvider = .kaikas ∨ s.walletProvider = .metamask) →
      getNetworkByChainId chainId = none →
      switchNetwork env s chainId = (.error (.unsupportedNetwork chainId), [])) ∧
    getNetworkByChainId 999999 = none ∧
    (∀ pobj network,
      getProviderRaw env s.walletProvider = .ok (some pobj) →
      getNetworkByChainId chainId = some network →
      (pobj.switchChain chainId = .ok () →
        switchNetwork env s chainId
          = (.ok (), [.switchChain (hexChainId chainId)])) ∧
      (∀ se, pobj.switchChain chainId = .error se → se.code = some 4902 →
        switchNetwork env s chainId
          = (match pobj.addChain chainId with
             | .ok _ => (.ok (),
                 [.switchChain (hexChainId chainId), addChainCall chainId network])
             | .error ae => (.error ae,
                 [.switchChain (hexChainId chainId), addChainCall chainId network]))) ∧
      (∀ se, pobj.switchChain chainId = .error se → se.code ≠ some 4902 →
        switchNetwork env s chainId
          = (.error se, [.switchChain (hexChainId chainId)]))) := by
  refine ⟨?_, rfl, ?_⟩
  · intro hkind hn
    unfold switchNetwork
    rcases hkind with hk | hk <;> rw [hk] <;> dsimp only [getProviderRaw] <;>
      rw [hn]
  · intro pobj network hpo hnw
    unfold switchNetwork
    rw [hpo]
    dsimp only
    rw [hnw]
    dsimp only
    refine ⟨?_, ?_, ?_⟩
    · intro hsw; rw [hsw]
    · intro se hsw hcode
      rw [hsw]
      dsimp only
      rw [if_pos hcode]
    · intro se hsw hcode
      rw [hsw]
      dsimp only
      rw [if_neg hcode]

/-- Witness for C5: chain 999999 is rejected with no provider call;
chain 1001 on a 4902-answering provider triggers the add-chain fallback
built from the registry's testnet entry; chain 8217 on a compliant
provider is a single switch request. -/
theorem switchNetwork_spec_witness :
    getNetworkByChainId 999999 = none ∧
    switchNetwork envKaikasHappy (mkService envKaikasHappy .kaikas) 999999
      = (.error (.unsupportedNetwork 999999), []) ∧
    getNetworkByChainId 1001 = some KAIA_TESTNET ∧
    switchNetwork env4902 (mkService env4902 .kaikas) 1001
      = (.ok (), [.switchChain (hexChainId 1001), addChainCall 1001 KAIA_TESTNET]) ∧
    switchNetwork envKaikasHappy (mkService envKaikasHappy .kaikas) 8217
      = (.ok (), [.switchChain (hexChainId 8217)]) := by
  refine ⟨rfl, ?_, rfl, ?_, ?_⟩
  · exact (switchNetwork_spec envKaikasHappy
      (mkService envKaikasHappy .kaikas) 999999).1 (Or.inl rfl) rfl
  · exact ((switchNetwork_spec env4902
      (mkService env4902 .kaikas) 1001).2.2 provider4902 KAIA_TESTNET rfl rfl).2.1
      (.provider "Unrecognized chain ID." (some 4902)) rfl rfl
  · exact ((switchNetwork_spec envKaikasHappy
      (mkService envKaikasHappy .kaikas) 8217).2.2 happyProvider KAIA_MAINNET
      rfl rfl).1 rfl

/-- C7: `selectWallet` fails with the unsupported-wallet error when no
backend is registered under the requested kind, fails with the
unavailable error when the registered backend's `isAvailable()` is
false, and on success returns the backend and records it as the
registry's current reference, visible through `getCurrentWallet`. -/
theorem selectWallet_spec (env : Env) (a : AdapterState) (p : WalletProvider) :
    (findWallet a.wallets p = none →
      selectWallet env a p = (.error (.unsupportedWallet p), a)) ∧
    (∀ w, findWallet a.wallets p = some w →
      isAvailable env w.walletProvider = false →
      selectWallet env a p = (.error (.walletUnavailable p), a)) ∧
    (∀ w, findWallet a.wallets p = some w →
      isAvailable env w.walletProvider = true →
      selectWallet env a p = (.ok w, { a with currentWallet := some p }) ∧
      getCurrentWallet (selectWallet env a p).2 = some w) := by
  refine ⟨?_, ?_, ?_⟩
  · intro h
    unfold selectWallet
    rw [h]
  · intro w hw hav
    unfold selectWallet
    rw [hw]
    dsimp only
    rw [if_pos hav]
  · intro w hw hav
    have hsel : selectWallet env a p = (.ok w, { a with currentWallet := some p }) := by
      unfold selectWallet
      rw [hw]
      dsimp only
      rw [if_neg (by simp [hav])]
    refine ⟨hsel, ?_⟩
    rw [hsel]
    unfold getCurrentWallet
    dsimp only
    exact hw

/-- Witness for C7: the unregistered WalletConnect kind, an installed
but unavailable Kaikas, and a successful Kaikas selection. -/
theorem selectWallet_spec_witness :
    (findWallet (mkAdapter envKaikasHappy).wallets .walletConnect = none ∧
      selectWallet envKaikasHappy (mkAdapter envKaikasHappy) .walletConnect
        = (.error (.unsupportedWallet .walletConnect), mkAdapter envKaikasHappy)) ∧
    (findWallet (mkAdapter envNoWallets).wallets .kaikas
        = some (mkService envNoWallets .kaikas) ∧
      selectWallet envNoWallets (mkAdapter envNoWallets) .kaikas
        = (.error (.walletUnavailable .kaikas), mkAdapter envNoWallets)) ∧
    (selectWallet envKaikasHappy (mkAdapter envKaikasHappy) .kaikas
        = (.ok (mkService envKaikasHappy .kaikas),
           { mkAdapter envKaikasHappy with currentWallet := some .kaikas }) ∧
      getCurrentWallet
          (selectWallet envKaikasHappy (mkAdapter envKaikasHappy) .kaikas).2
        = some (mkService envKaikasHappy .kaikas)) := by
  refine ⟨⟨rfl, ?_⟩, ⟨rfl, ?_⟩, ?_⟩
  · exact (selectWallet_spec envKaikasHappy
      (mkAdapter envKaikasHappy) .walletConnect).1 rfl
  · exact (selectWallet_spec envNoWallets (mkAdapter envNoWallets) .kaikas).2.1
      (mkService envNoWallets .kaikas) rfl rfl
  · exact (selectWallet_spec envKaikasHappy (mkAdapter envKaikasHappy) .kaikas).2.2
      (mkService envKaikasHappy .kaikas) rfl rfl

/-- C8: `getBalance` fails with the not-connected error whenever there
is no provider handle — in particular in every reachable state whose
status is `Disconnected`; with an address omitted it uses the first
account of the session and fails (as the `잔액 조회 실패`-wrapped
no-accounts error, the NoAccount failure of the spec's taxonomy) when
the session lists none; on success it returns the queried amount as its
decimal string in the smallest unit. -/
theorem getBalance_spec (s : ServiceState) :
    (s.web3Provider = none → ∀ x, getBalance s x = .error .notConnected) ∧
    (BackendReach s → s.state.status = .disconnected →
      ∀ x, getBalance s x = .error .notConnected) ∧
    (∀ pobj, s.web3Provider = some pobj → pobj.listAccounts = .ok [] →
      getBalance s none = .error (.balanceFailed JsError.noAccounts.message)) ∧
    (∀ pobj a rest n, s.web3Provider = some pobj →
      pobj.listAccounts = .ok (a :: rest) → pobj.balanceOf a = .ok n →
      getBalance s none = .ok (toString n)) ∧
    (∀ pobj addr n, s.web3Provider = some pobj → pobj.balanceOf addr = .ok n →
      getBalance s (some addr) = .ok (toString n)) := by
  refine ⟨?_, ?_, ?_, ?_, ?_⟩
  · intro h x
    unfold getBalance
    rw [h]
  · intro hr hd x
    have hnone := ((stateInv_reach hr).2.1 hd).2.2
    unfold getBalance
    rw [hnone]
  · intro pobj hp hl
    simp [getBalance, hp, hl]
  · intro pobj a rest n hp hl hb
    simp [getBalance, hp, hl, hb]
  · intro pobj addr n hp hb
    simp [getBalance, hp, hb]

/-- Witness for C8: a fresh (disconnected) backend, the empty-session
backend after the failed connect of `envKaikasNoAccounts`, and the
connected Kaikas session. -/
theorem getBalance_spec_witness :
    ((mkService envKaikasHappy .kaikas).state.status = .disconnected ∧
      getBalance (mkService envKaikasHappy .kaikas) none
        = .error .notConnected) ∧
    getBalance (connect envKaikasNoAccounts
        (mkService envKaikasNoAccounts .kaikas)).state none
      = .error (.balanceFailed JsError.noAccounts.message) ∧
    getBalance connectedKaikas none = .ok "1000000000000000000" ∧
    getBalance connectedKaikas (some "0xABC") = .ok "1000000000000000000" := by
  refine ⟨⟨rfl, ?_⟩, ?_, ?_, ?_⟩
  · exact (getBalance_spec (mkService envKaikasHappy .kaikas)).2.1
      (BackendReach.init envKaikasHappy .kaikas) rfl none
  · exact (getBalance_spec _).2.2.1
      { happyProvider with listAccounts := .ok [] } rfl rfl
  · exact (getBalance_spec connectedKaikas).2.2.2.1
      happyProvider "0xABC" [] 1000000000000000000 rfl rfl rfl
  · exact (getBalance_spec connectedKaikas).2.2.2.2
      happyProvider "0xABC" 1000000000000000000 rfl rfl

/-! ## Adapter helper lemmas -/

/-- `connect` never reassigns the constructor-supplied provider kind. -/
theorem connect_walletProvider (env : Env) (s : ServiceState) :
    (connect env s).state.walletProvider = s.walletProvider := by
  unfold connect
  dsimp only
  split
  · rfl
  · split
    · rfl
    · rfl
    · split
      · rfl
      · split
        · rfl
        · rfl
        · split
          · rfl
          · rfl

theorem getBalance_some_pobj (s : ServiceState) (pobj : ProviderObj)
    (h : s.web3Provider = some pobj) (a : String) :
    getBalance s (some a)
      = (match pobj.balanceOf a with
         | .error e => .error (.balanceFailed e.message)
         | .ok b => .ok (toString b)) := by
  unfold getBalance
  rw [h]

/-- The `.res` projection of `connect` depends only on the environment
and the provider kind. -/
theorem connect_res (env : Env) (s : ServiceState) :
    (connect env s).res = connectResSpec env s.walletProvider := by
  unfold connect connectResSpec
  dsimp only
  split
  · rfl
  · split
    · rfl
    · rfl
    · case _ pobj _ =>
      split
      · rfl
      · split
        · rfl
        · rfl
        · case _ addr rest _ =>
          rw [getBalance_some_pobj _ pobj rfl addr]
          cases hb : pobj.balanceOf addr with
          | error e => rfl
          | ok b => rfl

/-- `connect` either raises, or ends `Connected` and returns an account. -/
theorem connect_shape (env : Env) (s : ServiceState) :
    (∃ e, (connect env s).res = .error e) ∨
    ((connect env s).state.state.status = .connected ∧
      ∃ acct, (connect env s).res = .ok acct) := by
  unfold connect
  dsimp only
  split
  · exact Or.inl ⟨_, rfl⟩
  · split
    · exact Or.inl ⟨_, rfl⟩
    · exact Or.inl ⟨_, rfl⟩
    · split
      · exact Or.inl ⟨_, rfl⟩
      · split
        · exact Or.inl ⟨_, rfl⟩
        · exact Or.inl ⟨_, rfl⟩
        · split
          · exact Or.inl ⟨_, rfl⟩
          · exact Or.inr ⟨rfl, _, rfl⟩

theorem setWallet_keys (ws : List (WalletProvider × ServiceState))
    (p : WalletProvider) (s : ServiceState) :
    (setWallet ws p s).map Prod.fst = ws.map Prod.fst := by
  induction ws with
  | nil => rfl
  | cons x xs ih =>
    unfold setWallet at ih ⊢
    by_cases h : x.1 = p
    · simp only [List.map_cons, if_pos h, ih]
      rw [h]
    · simp only [List.map_cons, if_neg h, ih]

theorem setWallet_wp {ws : List (WalletProvider × ServiceState)}
    {p : WalletProvider} {s' : ServiceState}
    (h : ∀ x ∈ ws, x.2.walletProvider = x.1) (hs : s'.walletProvider = p) :
    ∀ x ∈ setWallet ws p s', x.2.walletProvider = x.1 := by
  intro x hx
  unfold setWallet at hx
  rw [List.mem_map] at hx
  obtain ⟨y, hy, hxy⟩ := hx
  by_cases hyp : y.1 = p
  · rw [if_pos hyp] at hxy
    subst hxy
    exact hs
  · rw [if_neg hyp] at hxy
    subst hxy
    exact h y hy

theorem findWallet_eq_none {ws : List (WalletProvider × ServiceState)}
    {p : WalletProvider} (h : p ∉ ws.map Prod.fst) : findWallet ws p = none := by
  induction ws with
  | nil => rfl
  | cons x xs ih =>
    unfold findWallet
    rw [List.map_cons, List.mem_cons] at h
    push_neg at h
    rw [if_neg (fun hx => h.1 hx.symm)]
    exact ih h.2

theorem findWallet_eq_some_of_mem {ws : List (WalletProvider × ServiceState)}
    {p : WalletProvider} (h : p ∈ ws.map Prod.fst) :
    ∃ w, findWallet ws p = some w := by
  induction ws with
  | nil => simp at h
  | cons x xs ih =>
    unfold findWallet
    by_cases hx : x.1 = p
    · exact ⟨x.2, by rw [if_pos hx]⟩
    · rw [if_neg hx]
      apply ih
      rw [List.map_cons, List.mem_cons] at h
      rcases h with h | h
      · exact absurd h.symm hx
      · exact h

theorem findWallet_mem {ws : List (WalletProvider × ServiceState)}
    {p : WalletProvider} {w : ServiceState} (h : findWallet ws p = some w) :
    (p, w) ∈ ws := by
  induction ws with
  | nil => cases h
  | cons x xs ih =>
    unfold findWallet at h
    by_cases hx : x.1 = p
    · rw [if_pos hx] at h
      injection h with h2
      have hxw : (p, w) = x := by rw [← hx, ← h2]
      rw [hxw]
      exact List.mem_cons_self x xs
    · rw [if_neg hx] at h
      exact List.mem_cons_of_mem x (ih h)

theorem findWallet_setWallet {ws : List (WalletProvider × ServiceState)}
    {p : WalletProvider} {w : ServiceState} (hw : findWallet ws p = some w)
    (s' : ServiceState) : findWallet (setWallet ws p s') p = some s' := by
  induction ws with
  | nil => cases hw
  | cons x xs ih =>
    unfold findWallet at hw
    unfold setWallet
    by_cases hx : x.1 = p
    · simp only [List.map_cons]
      rw [if_pos hx]
      unfold findWallet
      rw [if_pos rfl]
    · rw [if_neg hx] at hw
      simp only [List.map_cons]
      rw [if_neg hx]
      unfold findWallet
      rw [if_neg hx]
      exact ih hw

/-- Membership in the availability scan implies registration and
availability of that kind (given the key/kind invariant). -/
theorem mem_getAvailableWallets {env : Env} {a : AdapterState}
    {q : WalletProvider} (hwp : ∀ x ∈ a.wallets, x.2.walletProvider = x.1)
    (h : q ∈ getAvailableWallets env a) :
    q ∈ a.wallets.map Prod.fst ∧ isAvailable env q = true := by
  unfold getAvailableWallets at h
  rw [List.mem_map] at h
  obtain ⟨x, hx, rfl⟩ := h
  rw [List.mem_filter] at hx
  obtain ⟨hmem, hav⟩ := hx
  rw [hwp x hmem] at hav
  exact ⟨List.mem_map.mpr ⟨x, hmem, rfl⟩, hav⟩

/-- Successful `selectWallet`, as a reduction rule. -/
theorem selectWallet_ok {env : Env} {a : AdapterState} {p : WalletProvider}
    {w : ServiceState} (hw : findWallet a.wallets p = some w)
    (hav : isAvailable env w.walletProvider = true) :
    selectWallet env a p = (.ok w, { a with currentWallet := some p }) := by
  unfold selectWallet
  rw [hw]
  dsimp only
  rw [if_neg (by simp [hav])]

theorem selectWallet_wallets (env : Env) (a : AdapterState)
    (p : WalletProvider) : (selectWallet env a p).2.wallets = a.wallets := by
  unfold selectWallet
  split
  · rfl
  · split <;> rfl

theorem adapterInv_of_wallets_eq {a a' : AdapterState}
    (h : a'.wallets = a.wallets) (hi : adapterInv a) : adapterInv a' := by
  unfold adapterInv at hi ⊢
  rw [h]
  exact hi

theorem adapterInv_mkAdapter (env : Env) : adapterInv (mkAdapter env) := by
  constructor
  · rfl
  · intro x hx
    unfold mkAdapter at hx
    rcases List.mem_cons.mp hx with h | hx2
    · subst h; rfl
    · rcases List.mem_cons.mp hx2 with h | h
      · subst h; rfl
      · exact absurd h (List.not_mem_nil x)

theorem selectWallet_ok_elim {env : Env} {a : AdapterState}
    {p : WalletProvider} {w : ServiceState} {a1 : AdapterState}
    (h : selectWallet env a p = (.ok w, a1)) :
    findWallet a.wallets p = some w ∧ a1 = { a with currentWallet := some p } := by
  unfold selectWallet at h
  cases hf : findWallet a.wallets p with
  | none => rw [hf] at h; simp at h
  | some w' =>
    rw [hf] at h
    dsimp only at h
    split at h
    · simp at h
    · rw [Prod.mk.injEq] at h
      obtain ⟨h1, h2⟩ := h
      injection h1 with h1
      exact ⟨by rw [h1], h2.symm⟩

theorem disconnectAllList_keys (ws : List (WalletProvider × ServiceState)) :
    (ws.map (fun x =>
        if x.2.state.status = .connected then (x.1, (disconnect x.2).1) else x)).map
      Prod.fst = ws.map Prod.fst := by
  induction ws with
  | nil => rfl
  | cons x xs ih =>
    by_cases h : x.2.state.status = .connected
    · simp only [List.map_cons, if_pos h, ih]
    · simp only [List.map_cons, if_neg h, ih]

theorem adapterInv_disconnectAll {a : AdapterState} (hi : adapterInv a) :
    adapterInv (disconnectAll a) := by
  constructor
  · unfold disconnectAll
    dsimp only
    rw [disconnectAllList_keys]
    exact hi.1
  · intro x hx
    unfold disconnectAll at hx
    dsimp only at hx
    rw [List.mem_map] at hx
    obtain ⟨y, hy, hxy⟩ := hx
    by_cases h : y.2.state.status = .connected
    · rw [if_pos h] at hxy
      subst hxy
      exact hi.2 y hy
    · rw [if_neg h] at hxy
      subst hxy
      exact hi.2 y hy

theorem adapterInv_autoConnectLoop (env : Env) (avail : List WalletProvider) :
    ∀ (ps : List WalletProvider) (a : AdapterState), adapterInv a →
    adapterInv (autoConnectLoop env a avail ps).2 := by
  intro ps
  induction ps with
  | nil => intro a h; exact h
  | cons p rest ih =>
    intro a h
    unfold autoConnectLoop
    by_cases hmem : p ∈ avail
    · rw [if_pos hmem]
      rcases hsel : selectWallet env a p with ⟨r, a1⟩
      have ha1 : a1.wallets = a.wallets := by
        have hss := selectWallet_wallets env a p
        rw [hsel] at hss
        exact hss
      cases r with
      | error e =>
        dsimp only
        exact ih a1 (adapterInv_of_wallets_eq ha1 h)
      | ok w =>
        dsimp only
        obtain ⟨hfw, ha1eq⟩ := selectWallet_ok_elim hsel
        have hcwp : (connect env w).state.walletProvider = p := by
          rw [connect_walletProvider]
          exact h.2 _ (findWallet_mem hfw)
        have hinvN : adapterInv
            { a1 with wallets := setWallet a1.wallets p (connect env w).state } := by
          constructor
          · dsimp only
            rw [setWallet_keys, ha1]
            exact h.1
          · dsimp only
            apply setWallet_wp ?_ hcwp
            rw [ha1]
            exact h.2
        cases (connect env w).res with
        | ok acct => exact hinvN
        | error e => exact ih _ hinvN
    · rw [if_neg hmem]
      exact ih a h

theorem adapterInv_reach {a : AdapterState} (h : AdapterReach a) :
    adapterInv a := by
  induction h with
  | init env => exact adapterInv_mkAdapter env
  | selectStep env p _ ih =>
    exact adapterInv_of_wallets_eq (selectWallet_wallets env _ p) ih
  | autoConnectStep env _ ih =>
    unfold autoConnect
    dsimp only
    split
    · exact ih
    · exact adapterInv_autoConnectLoop env _ priorityOrder _ ih
  | disconnectAllStep _ ih => exact adapterInv_disconnectAll ih
  | backendStep p w w' _ hfw hwp ih =>
    constructor
    · dsimp only
      rw [setWallet_keys]
      exact ih.1
    · dsimp only
      apply setWallet_wp ih.2
      rw [hwp]
      exact ih.2 _ (findWallet_mem hfw)

/-- The `autoConnect` candidate loop, characterized: its result is the
first priority candidate that is both available and whose connect
outcome succeeds, and on success the stored backend is `Connected`. -/
theorem autoConnectLoop_spec (env : Env) (avail : List WalletProvider) :
    ∀ (ps : List WalletProvider) (a : AdapterState),
    adapterInv a →
    (∀ q ∈ avail, q ∈ a.wallets.map Prod.fst ∧ isAvailable env q = true) →
    (autoConnectLoop env a avail ps).1
        = ps.find? (fun q => decide (q ∈ avail) && exceptOk (connectResSpec env q)) ∧
    (∀ p, (autoConnectLoop env a avail ps).1 = some p →
      ∃ w, findWallet (autoConnectLoop env a avail ps).2.wallets p = some w ∧
        w.state.status = .connected) := by
  intro ps
  induction ps with
  | nil =>
    intro a hinv hav
    exact ⟨rfl, fun p hp => nomatch hp⟩
  | cons p rest ih =>
    intro a hinv hav
    unfold autoConnectLoop
    by_cases hmem : p ∈ avail
    · rw [if_pos hmem]
      obtain ⟨hpkeys, hpav⟩ := hav p hmem
      obtain ⟨w, hw⟩ := findWallet_eq_some_of_mem hpkeys
      have hwprov : w.walletProvider = p := hinv.2 _ (findWallet_mem hw)
      have hsel : selectWallet env a p
          = (.ok w, { a with currentWallet := some p }) :=
        selectWallet_ok hw (by rw [hwprov]; exact hpav)
      rw [hsel]
      dsimp only
      have hres : (connect env w).res = connectResSpec env p := by
        rw [connect_res, hwprov]
      have hcwp : (connect env w).state.walletProvider = p := by
        rw [connect_walletProvider, hwprov]
      rw [hres]
      cases hcs : connectResSpec env p with
      | ok acct =>
        dsimp only
        constructor
        · rw [List.find?_cons_of_pos _ (by simp [hmem, hcs, exceptOk])]
        · intro p' hp'
          injection hp' with hp'
          subst hp'
          refine ⟨(connect env w).state, ?_, ?_⟩
          · dsimp only
            exact findWallet_setWallet hw _
          · rcases connect_shape env w with ⟨e, he⟩ | ⟨hstat, _⟩
            · rw [hres, hcs] at he
              cases he
            · exact hstat
      | error e =>
        dsimp only
        have hinvN : adapterInv
            { wallets := setWallet a.wallets p (connect env w).state,
              currentWallet := some p } := by
          constructor
          · dsimp only
            rw [setWallet_keys]
            exact hinv.1
          · dsimp only
            exact setWallet_wp hinv.2 hcwp
        have havN : ∀ q ∈ avail,
            q ∈ (setWallet a.wallets p (connect env w).state).map Prod.fst ∧
              isAvailable env q = true := by
          intro q hq
          rw [setWallet_keys]
          exact hav q hq
        constructor
        · rw [List.find?_cons_of_neg _ (by simp [hcs, exceptOk])]
          exact (ih _ hinvN havN).1
        · exact (ih _ hinvN havN).2
    · rw [if_neg hmem]
      constructor
      · rw [List.find?_cons_of_neg _ (by simp [hmem])]
        exact (ih a hinv hav).1
      · exact (ih a hinv hav).2

theorem statesList_keys (ws : List (WalletProvider × ServiceState)) :
    (ws.map (fun x => (x.1, getState x.2))).map Prod.fst = ws.map Prod.fst := by
  induction ws with
  | nil => rfl
  | cons x xs ih => simp only [List.map_cons, ih]

/-- C2: on every reachable registry, `autoConnect` walks the fixed
priority order (Kaikas, MetaMask, WalletConnect) intersected with the
available wallets and returns exactly the first candidate that is
available and whose connect outcome (`connectResSpec`, the outcome of
`connect` determined by the environment and kind) succeeds — per-candidate
failures are swallowed and the walk continues — or `none`, without any
failure escaping, when no wallet is available (registry left untouched)
or every attempted connect fails; a returned backend is recorded
`Connected`.  The two-backend scenario: with Kaikas and MetaMask both
available but Kaikas's connect rejected, it returns MetaMask, connected. -/
theorem autoConnect_spec (env : Env) {a : AdapterState} (h : AdapterReach a) :
    (getAvailableWallets env a = [] → autoConnect env a = (none, a)) ∧
    (autoConnect env a).1
        = priorityOrder.find? (fun q =>
            decide (q ∈ getAvailableWallets env a)
              && exceptOk (connectResSpec env q)) ∧
    (∀ p, (autoConnect env a).1 = some p →
      isAvailable env p = true ∧
      ∃ w, findWallet (autoConnect env a).2.wallets p = some w ∧
        w.state.status = .connected) ∧
    (autoConnect envHigherFails (mkAdapter envHigherFails)).1 = some .metamask ∧
    (∃ w, findWallet
        (autoConnect envHigherFails (mkAdapter envHigherFails)).2.wallets .metamask
          = some w ∧ w.state.status = .connected) ∧
    autoConnect envNoWallets (mkAdapter envNoWallets)
      = (none, mkAdapter envNoWallets) := by
  have hinv := adapterInv_reach h
  have hav : ∀ q ∈ getAvailableWallets env a,
      q ∈ a.wallets.map Prod.fst ∧ isAvailable env q = true :=
    fun q hq => mem_getAvailableWallets hinv.2 hq
  refine ⟨?_, ?_, ?_, rfl, ⟨_, rfl, rfl⟩, rfl⟩
  · intro hempty
    unfold autoConnect
    dsimp only
    rw [hempty]
    rw [if_pos List.isEmpty_nil]
  · by_cases hemp : (getAvailableWallets env a).isEmpty
    · have hempty : getAvailableWallets env a = [] := by
        cases hgl : getAvailableWallets env a with
        | nil => rfl
        | cons y ys => rw [hgl] at hemp; simp [List.isEmpty] at hemp
      unfold autoConnect
      dsimp only
      rw [hempty, if_pos List.isEmpty_nil]
      simp only [priorityOrder]
      rw [List.find?_cons_of_neg _ (by simp), List.find?_cons_of_neg _ (by simp),
          List.find?_cons_of_neg _ (by simp)]
      rfl
    · unfold autoConnect
      dsimp only
      rw [if_neg hemp]
      exact (autoConnectLoop_spec env (getAvailableWallets env a)
        priorityOrder a hinv hav).1
  · intro p hp
    unfold autoConnect at hp ⊢
    dsimp only at hp ⊢
    by_cases hemp : (getAvailableWallets env a).isEmpty
    · rw [if_pos hemp] at hp
      simp at hp
    · rw [if_neg hemp] at hp ⊢
      have hls := autoConnectLoop_spec env (getAvailableWallets env a)
        priorityOrder a hinv hav
      refine ⟨?_, hls.2 p hp⟩
      rw [hls.1] at hp
      have hpred := List.find?_some hp
      rw [Bool.and_eq_true, decide_eq_true_eq] at hpred
      exact (hav p hpred.1).2

/-- Witness for C2 at the two-backend scenario registry (and the bare
browser for the empty case). -/
theorem autoConnect_spec_witness :
    (autoConnect envHigherFails (mkAdapter envHigherFails)).1
        = priorityOrder.find? (fun q =>
            decide (q ∈ getAvailableWallets envHigherFails (mkAdapter envHigherFails))
              && exceptOk (connectResSpec envHigherFails q)) ∧
    (isAvailable envHigherFails .metamask = true ∧
      ∃ w, findWallet
          (autoConnect envHigherFails (mkAdapter envHigherFails)).2.wallets .metamask
            = some w ∧ w.state.status = .connected) ∧
    (autoConnect envHigherFails (mkAdapter envHigherFails)).1 = some .metamask ∧
    autoConnect envNoWallets (mkAdapter envNoWallets)
      = (none, mkAdapter envNoWallets) := by
  obtain ⟨h1, h2, h3, h4, h5, h6⟩ :=
    autoConnect_spec envHigherFails (AdapterReach.init envHigherFails)
  exact ⟨h2, h3 .metamask h4, h4, h6⟩

/-- C10: on every reachable registry state only the Kaikas and MetaMask
kinds are registered: selecting the WalletConnect kind fails with the
unsupported-wallet error, the availability scan and the state snapshot
never mention WalletConnect, and `autoConnect` never returns a
WalletConnect backend although that kind sits in its priority list. -/
theorem registry_excludes_walletConnect {a : AdapterState} (h : AdapterReach a) :
    (∀ env, selectWallet env a .walletConnect
        = (.error (.unsupportedWallet .walletConnect), a)) ∧
    (∀ env, WalletProvider.walletConnect ∉ getAvailableWallets env a) ∧
    (getWalletStates a).map Prod.fst = [.kaikas, .metamask] ∧
    (∀ env, (autoConnect env a).1 ≠ some .walletConnect) := by
  have hinv := adapterInv_reach h
  have hwcnot : WalletProvider.walletConnect ∉ a.wallets.map Prod.fst := by
    rw [hinv.1]
    decide
  have hnotavail : ∀ env,
      WalletProvider.walletConnect ∉ getAvailableWallets env a := by
    intro env hmem
    exact hwcnot (mem_getAvailableWallets hinv.2 hmem).1
  refine ⟨?_, hnotavail, ?_, ?_⟩
  · intro env
    unfold selectWallet
    rw [findWallet_eq_none hwcnot]
  · unfold getWalletStates
    rw [statesList_keys]
    exact hinv.1
  · intro env hcon
    unfold autoConnect at hcon
    dsimp only at hcon
    by_cases hemp : (getAvailableWallets env a).isEmpty
    · rw [if_pos hemp] at hcon
      simp at hcon
    · rw [if_neg hemp] at hcon
      have hav : ∀ q ∈ getAvailableWallets env a,
          q ∈ a.wallets.map Prod.fst ∧ isAvailable env q = true :=
        fun q hq => mem_getAvailableWallets hinv.2 hq
      rw [(autoConnectLoop_spec env (getAvailableWallets env a)
        priorityOrder a hinv hav).1] at hcon
      have hpred := List.find?_some hcon
      rw [Bool.and_eq_true, decide_eq_true_eq] at hpred
      exact hnotavail env hpred.1

/-- Witness for C10 at a freshly constructed registry. -/
theorem registry_excludes_walletConnect_witness :
    selectWallet envKaikasHappy (mkAdapter envKaikasHappy) .walletConnect
        = (.error (.unsupportedWallet .walletConnect), mkAdapter envKaikasHappy) ∧
    WalletProvider.walletConnect
        ∉ getAvailableWallets envKaikasHappy (mkAdapter envKaikasHappy) ∧
    (getWalletStates (mkAdapter envKaikasHappy)).map Prod.fst
        = [.kaikas, .metamask] ∧
    (autoConnect envKaikasHappy (mkAdapter envKaikasHappy)).1
        ≠ some .walletConnect := by
  obtain ⟨h1, h2, h3, h4⟩ :=
    registry_excludes_walletConnect (AdapterReach.init envKaikasHappy)
  exact ⟨h1 envKaikasHappy, h2 envKaikasHappy, h3, h4 envKaikasHappy⟩

end KaiaWallet
